import Mathlib

set_option autoImplicit false

/-!
Shallow embedding of `matamazon.py` (Baragox/Post-Matamortem).

The embedding mirrors the source file:
* Python's dynamically typed argument values are modelled by `PyVal`
  (an `int` that is not a `bool` is `PyVal.int`, a `bool` is `PyVal.bool`,
  a `float` is `PyVal.float` with exact rational contents, …).
* the validators `_is_valid_non_negative_int` / `_is_valid_non_negative_real`
  become `is_valid_non_negative_int` / `is_valid_non_negative_real`;
  `asNonnegInt` / `asNonnegReal` are the same checks packaged as partial
  extractions (`isSome` coincides with the boolean validator).
* raising `InvalidIdException` / `InvalidPriceException` becomes returning
  `Except.error` with a `MatamaError`.
* Python's insertion-ordered `dict` maps become association lists with
  first-match lookup (`lookupA`), replace-in-place-or-append write (`setA`,
  the semantics of `d[k] = v`) and in-place deletion (`eraseA`, the
  semantics of `del d[k]`).
* `sorted(-, key=...)` (a stable sort) is modelled by Mathlib's stable
  `List.insertionSort`.
-/

/-- Model of a dynamically typed Python value, as passed to the record
constructors and to the store operations of `matamazon.py`. -/
inductive PyVal where
  | int (n : Int)
  | bool (b : Bool)
  | float (q : ℚ)
  | str (s : String)
  | pynone
  deriving DecidableEq

/-- `_is_valid_non_negative_int` (matamazon.py:25-27): a non-negative `int`
that is not a `bool`. -/
def is_valid_non_negative_int : PyVal → Bool
  | .int n => 0 ≤ n
  | _ => false

/-- `_is_valid_non_negative_real` (matamazon.py:36-40): a non-negative `int`
or `float` that is not a `bool`. -/
def is_valid_non_negative_real : PyVal → Bool
  | .int n => 0 ≤ n
  | .float q => 0 ≤ q
  | _ => false

/-- The validated payload of `_is_valid_non_negative_int`: `some n` exactly
when the check passes, carrying the numeric value. -/
def asNonnegInt : PyVal → Option Nat
  | .int n => if 0 ≤ n then some n.toNat else Option.none
  | _ => Option.none

/-- The validated payload of `_is_valid_non_negative_real`: `some q` exactly
when the check passes, carrying the numeric value. -/
def asNonnegReal : PyVal → Option ℚ
  | .int n => if 0 ≤ n then some (n : ℚ) else Option.none
  | .float q => if 0 ≤ q then some q else Option.none
  | _ => Option.none

/-- The two domain exceptions of `matamazon.py`:
`InvalidIdException` (line 17) and `InvalidPriceException` (line 30),
each carrying the offending value. -/
inductive MatamaError where
  | invalidId (v : PyVal)
  | invalidPrice (v : PyVal)
  deriving DecidableEq

/-- A validated `Customer` or `Supplier` record (matamazon.py:44-91); the
two classes have identical shape, and registration routes them into the
customer or the supplier map via the `is_customer` flag. -/
structure Person where
  id : Nat
  name : String
  city : String
  address : String
  deriving DecidableEq

/-- A validated `Product` record (matamazon.py:94-113). -/
structure Product where
  id : Nat
  name : String
  price : ℚ
  supplier_id : Nat
  quantity : Nat
  deriving DecidableEq

/-- A validated `Order` record (matamazon.py:124-145). -/
structure Order where
  id : Nat
  customer_id : Nat
  product_id : Nat
  quantity : Nat
  total_price : ℚ
  deriving DecidableEq

/-- `Customer.__init__` (matamazon.py:49-57): validates the id, raising
`InvalidIdException` on failure. -/
def mkCustomer (id : PyVal) (name city address : String) :
    Except MatamaError Person :=
  match asNonnegInt id with
  | Option.none => .error (.invalidId id)
  | some i => .ok ⟨i, name, city, address⟩

/-- `Supplier.__init__` (matamazon.py:74-81): validates the id, raising
`InvalidIdException` on failure. -/
def mkSupplier (id : PyVal) (name city address : String) :
    Except MatamaError Person :=
  match asNonnegInt id with
  | Option.none => .error (.invalidId id)
  | some i => .ok ⟨i, name, city, address⟩

/-- `Product.__init__` (matamazon.py:99-113): validates, in source order,
`id`, `supplier_id`, `quantity` (raising `InvalidIdException`) and then
`price` (raising `InvalidPriceException`). -/
def mkProduct (id : PyVal) (name : String) (price supplier_id quantity : PyVal) :
    Except MatamaError Product :=
  match asNonnegInt id with
  | Option.none => .error (.invalidId id)
  | some i =>
    match asNonnegInt supplier_id with
    | Option.none => .error (.invalidId supplier_id)
    | some s =>
      match asNonnegInt quantity with
      | Option.none => .error (.invalidId quantity)
      | some q =>
        match asNonnegReal price with
        | Option.none => .error (.invalidPrice price)
        | some pr => .ok ⟨i, name, pr, s, q⟩

/-- `Order.__init__` (matamazon.py:129-145): validates, in source order,
`id`, `customer_id`, `product_id`, `quantity` (raising
`InvalidIdException`) and then `total_price` (raising
`InvalidPriceException`). -/
def mkOrder (id customer_id product_id quantity total_price : PyVal) :
    Except MatamaError Order :=
  match asNonnegInt id with
  | Option.none => .error (.invalidId id)
  | some i =>
    match asNonnegInt customer_id with
    | Option.none => .error (.invalidId customer_id)
    | some c =>
      match asNonnegInt product_id with
      | Option.none => .error (.invalidId product_id)
      | some p =>
        match asNonnegInt quantity with
        | Option.none => .error (.invalidId quantity)
        | some q =>
          match asNonnegReal total_price with
          | Option.none => .error (.invalidPrice total_price)
          | some t => .ok ⟨i, c, p, q, t⟩

/-- First-match lookup in an insertion-ordered association list (the model
of Python `dict.get` / `in`). -/
def lookupA {α : Type} : List (Nat × α) → Nat → Option α
  | [], _ => Option.none
  | (k, v) :: rest, i => if k = i then some v else lookupA rest i

/-- Membership test, the model of Python's `k in d`. -/
def containsA {α : Type} (l : List (Nat × α)) (i : Nat) : Bool :=
  (lookupA l i).isSome

/-- The model of Python's `d[k] = v`: replace the value at the key in
place if present, otherwise append at the end. -/
def setA {α : Type} : List (Nat × α) → Nat → α → List (Nat × α)
  | [], i, v => [(i, v)]
  | (k, w) :: rest, i, v =>
    if k = i then (i, v) :: rest else (k, w) :: setA rest i v

/-- The model of Python's `del d[k]`: drop the (first) entry at the key. -/
def eraseA {α : Type} : List (Nat × α) → Nat → List (Nat × α)
  | [], _ => []
  | (k, w) :: rest, i => if k = i then rest else (k, w) :: eraseA rest i

/-- The state of a `MatamazonSystem` (matamazon.py:163-172): four
insertion-ordered maps plus the next order id. -/
structure MState where
  customers : List (Nat × Person)
  suppliers : List (Nat × Person)
  products : List (Nat × Product)
  orders : List (Nat × Order)
  next_order_id : Nat
  deriving DecidableEq

/-- `MatamazonSystem.__init__` (matamazon.py:163-172): empty maps,
`_next_order_id = ONE`. -/
def MState.init : MState := ⟨[], [], [], [], 1⟩

/-- The three possible return values of `place_order`
(matamazon.py:11-13): `SUCCESS_ORDER_MSG`, `NO_PRODUCT_MSG`,
`NOT_ENOUGH_STOCK_MSG`. -/
inductive OrderOutcome where
  | success
  | noProduct
  | notEnoughStock
  deriving DecidableEq

/-- `MatamazonSystem.register_entity` (matamazon.py:174-188): re-validates
the entity's id, then checks for a duplicate only in the map selected by
`is_customer`, and inserts there. -/
def register_entity (st : MState) (entity : Person) (is_customer : Bool) :
    Except MatamaError MState :=
  if ¬ is_valid_non_negative_int (.int entity.id) then
    .error (.invalidId (.int entity.id))
  else if is_customer then
    if containsA st.customers entity.id then .error (.invalidId (.int entity.id))
    else .ok { st with customers := setA st.customers entity.id entity }
  else
    if containsA st.suppliers entity.id then .error (.invalidId (.int entity.id))
    else .ok { st with suppliers := setA st.suppliers entity.id entity }

/-- `MatamazonSystem.add_or_update_product` (matamazon.py:193-212). -/
def add_or_update_product (st : MState) (product : Product) :
    Except MatamaError MState :=
  if ¬ containsA st.suppliers product.supplier_id then
    .error (.invalidId (.int product.supplier_id))
  else
    match lookupA st.products product.id with
    | Option.none => .ok { st with products := setA st.products product.id product }
    | some existing =>
      if existing.supplier_id ≠ product.supplier_id then
        .error (.invalidId (.int product.supplier_id))
      else
        let updated : Product :=
          { existing with
              name := product.name
              price := product.price
              quantity := product.quantity }
        .ok { st with products := setA st.products product.id updated }

/-- `MatamazonSystem.place_order` (matamazon.py:215-249).  The `Order(...)`
construction on line 244 re-runs the record validators; its id arguments
are non-negative machine naturals here, so the only check that can fail is
the `total_price` one, kept as the explicit negativity test below. -/
def place_order (st : MState) (customer_id product_id quantity : PyVal) :
    Except MatamaError (MState × OrderOutcome) :=
  match asNonnegInt customer_id with
  | Option.none => .error (.invalidId customer_id)
  | some c =>
    match asNonnegInt product_id with
    | Option.none => .error (.invalidId product_id)
    | some p =>
      match asNonnegInt quantity with
      | Option.none => .error (.invalidId quantity)
      | some q =>
        if ¬ containsA st.customers c then .error (.invalidId customer_id)
        else
          match lookupA st.products p with
          | Option.none => .ok (st, .noProduct)
          | some product =>
            if product.quantity < q then .ok (st, .notEnoughStock)
            else
              let total : ℚ := product.price * (q : ℚ)
              if total < 0 then .error (.invalidPrice (.float total))
              else
                let updated : Product := { product with quantity := product.quantity - q }
                let order : Order := ⟨st.next_order_id, c, p, q, total⟩
                .ok ({ st with
                         products := setA st.products p updated
                         orders := setA st.orders st.next_order_id order
                         next_order_id := st.next_order_id + 1 },
                     .success)

/-- `MatamazonSystem.remove_object` (matamazon.py:256-316), returning the
restored quantity for an `Order` and `None` (here `Option.none`) for the
other kinds. -/
def remove_object (st : MState) (idv : PyVal) (class_type : String) :
    Except MatamaError (MState × Option Nat) :=
  match asNonnegInt idv with
  | Option.none => .error (.invalidId idv)
  | some i =>
    if class_type = "Order" then
      match lookupA st.orders i with
      | Option.none => .error (.invalidId idv)
      | some o =>
        match lookupA st.products o.product_id with
        | Option.none => .error (.invalidId (.int (o.product_id : Int)))
        | some p =>
          let restored : Product := { p with quantity := p.quantity + o.quantity }
          .ok ({ st with
                   products := setA st.products o.product_id restored
                   orders := eraseA st.orders i },
               some o.quantity)
    else if class_type = "Customer" then
      if ¬ containsA st.customers i then .error (.invalidId idv)
      else if st.orders.any (fun kv => kv.2.customer_id == i) then
        .error (.invalidId idv)
      else .ok ({ st with customers := eraseA st.customers i }, Option.none)
    else if class_type = "Product" then
      if ¬ containsA st.products i then .error (.invalidId idv)
      else if st.orders.any (fun kv => kv.2.product_id == i) then
        .error (.invalidId idv)
      else .ok ({ st with products := eraseA st.products i }, Option.none)
    else if class_type = "Supplier" then
      if ¬ containsA st.suppliers i then .error (.invalidId idv)
      else if st.products.any (fun kv => kv.2.supplier_id == i) then
        .error (.invalidId idv)
      else if st.orders.any (fun kv =>
          match lookupA st.products kv.2.product_id with
          | some p => p.supplier_id == i
          | Option.none => false) then
        .error (.invalidId idv)
      else .ok ({ st with suppliers := eraseA st.suppliers i }, Option.none)
    else .error (.invalidId idv)

/-- Boolean test that `small` occurs at the start of `big`. -/
def isPrefixCh : List Char → List Char → Bool
  | [], _ => true
  | _ :: _, [] => false
  | a :: as, b :: bs => a == b && isPrefixCh as bs

/-- Boolean substring-occurrence test on character lists. -/
def isSubCh (needle : List Char) : List Char → Bool
  | [] => needle.isEmpty
  | c :: t => isPrefixCh needle (c :: t) || isSubCh needle t

/-- Python's `str.lower()`: the string's characters, lowercased.
(Stated on the character list so that it evaluates structurally.) -/
def lowerChars (s : String) : List Char :=
  s.toList.map Char.toLower

/-- The `max_price` filter of the search loop (matamazon.py:339):
`max_price is None or p.price <= max_price`. -/
def price_ok (max_price : Option ℚ) (p : Product) : Bool :=
  match max_price with
  | Option.none => true
  | some m => decide (p.price ≤ m)

/-- The body of the search loop (matamazon.py:335-340): skip products with
zero quantity, keep those whose lowercased name contains the lowercased
query, then apply the `max_price` filter. -/
def search_matches (query : String) (max_price : Option ℚ) (p : Product) : Bool :=
  !(p.quantity == 0) &&
    (isSubCh (lowerChars query) (lowerChars p.name) && price_ok max_price p)

/-- The comparison key of `sorted(matches, key=lambda p: p.price)`
(matamazon.py:342). -/
def priceLE (a b : Product) : Prop := a.price ≤ b.price

instance : DecidableRel priceLE :=
  fun a b => inferInstanceAs (Decidable (a.price ≤ b.price))

instance : IsTotal Product priceLE := ⟨fun a b => le_total a.price b.price⟩

instance : IsTrans Product priceLE := ⟨fun _ _ _ => le_trans⟩

/-- `MatamazonSystem.search_products` (matamazon.py:321-342).  Python's
`sorted` is a stable sort; it is modelled by the stable
`List.insertionSort`. -/
def search_products (st : MState) (query : String) (max_price : Option PyVal) :
    Except MatamaError (List Product) :=
  match max_price with
  | some v =>
    match asNonnegReal v with
    | Option.none => .error (.invalidPrice v)
    | some m =>
      .ok (List.insertionSort priceLE
        ((st.products.map Prod.snd).filter (search_matches query (some m))))
  | Option.none =>
    .ok (List.insertionSort priceLE
      ((st.products.map Prod.snd).filter (search_matches query Option.none)))

/-- One line of a snapshot file, after Python's `eval` restricted to the
`{Customer, Supplier, Product}` vocabulary (matamazon.py:402-417) has
classified it: `garbage` covers the lines whose evaluation raises one of
the caught `SyntaxError/NameError/TypeError/ValueError` (line 418),
`otherValue` a line that evaluates but is none of the three record kinds
(line 429), and the three constructor shapes carry their argument
values. -/
inductive SnapLine where
  | garbage
  | customerLine (id : PyVal) (name city address : String)
  | supplierLine (id : PyVal) (name city address : String)
  | productLine (id : PyVal) (name : String) (price supplier_id quantity : PyVal)
  | otherValue
  deriving DecidableEq

/-- The three accumulation lists of `load_system_from_file`
(matamazon.py:398-400). -/
structure ParsedLists where
  customers : List Person
  suppliers : List Person
  products : List Product
  deriving DecidableEq

/-- One iteration of the reading loop of `load_system_from_file`
(matamazon.py:411-430): skipped lines leave the accumulator unchanged; a
constructor line runs the record constructor, whose
`InvalidIdException` / `InvalidPriceException` is NOT caught (only
`SyntaxError/NameError/TypeError/ValueError` are, line 418) and therefore
aborts the load. -/
def parseLine (acc : ParsedLists) : SnapLine → Except MatamaError ParsedLists
  | .garbage => .ok acc
  | .otherValue => .ok acc
  | .customerLine i n c a => do
      let cust ← mkCustomer i n c a
      .ok { acc with customers := acc.customers ++ [cust] }
  | .supplierLine i n c a => do
      let sup ← mkSupplier i n c a
      .ok { acc with suppliers := acc.suppliers ++ [sup] }
  | .productLine i n pr s q => do
      let p ← mkProduct i n pr s q
      .ok { acc with products := acc.products ++ [p] }

/-- `load_system_from_file` (matamazon.py:391-440): classify every line,
then register all customers, then all suppliers, then add all products.
Any uncaught constructor, registration or product error aborts the load. -/
def load_system_from_file (lines : List SnapLine) : Except MatamaError MState := do
  let acc ← lines.foldlM parseLine ⟨[], [], []⟩
  let st1 ← acc.customers.foldlM (fun st c => register_entity st c true) MState.init
  let st2 ← acc.suppliers.foldlM (fun st s => register_entity st s false) st1
  let st3 ← acc.products.foldlM (fun st p => add_or_update_product st p) st2
  .ok st3

/-- Boolean success test on `Except`. -/
def isOkE {ε α : Type} : Except ε α → Bool
  | .ok _ => true
  | .error _ => false

/-! Helper lemmas about the validators and the association-list model. -/

theorem asNonnegInt_isSome (v : PyVal) :
    (asNonnegInt v).isSome = is_valid_non_negative_int v := by
  cases v <;> simp [asNonnegInt, is_valid_non_negative_int]
  split <;> simp_all

theorem asNonnegReal_isSome (v : PyVal) :
    (asNonnegReal v).isSome = is_valid_non_negative_real v := by
  cases v <;> simp [asNonnegReal, is_valid_non_negative_real] <;>
    (split <;> simp_all)

theorem asNonnegInt_eq_none (v : PyVal) :
    asNonnegInt v = Option.none ↔ is_valid_non_negative_int v = false := by
  rw [← asNonnegInt_isSome]
  cases asNonnegInt v <;> simp

theorem asNonnegReal_eq_none (v : PyVal) :
    asNonnegReal v = Option.none ↔ is_valid_non_negative_real v = false := by
  rw [← asNonnegReal_isSome]
  cases asNonnegReal v <;> simp

@[simp] theorem asNonnegInt_natCast (n : Nat) :
    asNonnegInt (PyVal.int (n : Int)) = some n := by
  simp [asNonnegInt]

theorem lookupA_setA_self {α : Type} (l : List (Nat × α)) (k : Nat) (v : α) :
    lookupA (setA l k v) k = some v := by
  induction l with
  | nil => simp [setA, lookupA]
  | cons kv rest ih =>
    obtain ⟨k', w⟩ := kv
    by_cases h : k' = k
    · simp [setA, h, lookupA]
    · simp [setA, h, lookupA, ih]

theorem asNonnegInt_eq_some (v : PyVal) (h : is_valid_non_negative_int v = true) :
    ∃ n, asNonnegInt v = some n := by
  rw [← asNonnegInt_isSome] at h
  exact Option.isSome_iff_exists.mp h

theorem asNonnegReal_eq_some (v : PyVal) (h : is_valid_non_negative_real v = true) :
    ∃ q, asNonnegReal v = some q := by
  rw [← asNonnegReal_isSome] at h
  exact Option.isSome_iff_exists.mp h

/-- C9: record construction succeeds iff every id/quantity field is a
non-negative non-boolean integer and every price/total field is a
non-negative non-boolean integer or real; an id/quantity violation raises
`InvalidIdException` (the first offender in source order), and a
price/total violation with valid ids raises `InvalidPriceException`. -/
theorem record_construction_spec :
    (∀ id n c a, isOkE (mkCustomer id n c a) = is_valid_non_negative_int id) ∧
    (∀ id n c a, is_valid_non_negative_int id = false →
        mkCustomer id n c a = .error (.invalidId id)) ∧
    (∀ id n c a, isOkE (mkSupplier id n c a) = is_valid_non_negative_int id) ∧
    (∀ id n c a, is_valid_non_negative_int id = false →
        mkSupplier id n c a = .error (.invalidId id)) ∧
    (∀ id n pr s q, isOkE (mkProduct id n pr s q) =
        (is_valid_non_negative_int id && is_valid_non_negative_int s &&
          is_valid_non_negative_int q && is_valid_non_negative_real pr)) ∧
    (∀ id n pr s q,
        (is_valid_non_negative_int id = false ∨ is_valid_non_negative_int s = false ∨
          is_valid_non_negative_int q = false) →
        ∃ v, mkProduct id n pr s q = .error (.invalidId v)) ∧
    (∀ id n pr s q, is_valid_non_negative_int id = true →
        is_valid_non_negative_int s = true → is_valid_non_negative_int q = true →
        is_valid_non_negative_real pr = false →
        mkProduct id n pr s q = .error (.invalidPrice pr)) ∧
    (∀ i c p q t, isOkE (mkOrder i c p q t) =
        (is_valid_non_negative_int i && is_valid_non_negative_int c &&
          is_valid_non_negative_int p && is_valid_non_negative_int q &&
          is_valid_non_negative_real t)) ∧
    (∀ i c p q t,
        (is_valid_non_negative_int i = false ∨ is_valid_non_negative_int c = false ∨
          is_valid_non_negative_int p = false ∨ is_valid_non_negative_int q = false) →
        ∃ v, mkOrder i c p q t = .error (.invalidId v)) ∧
    (∀ i c p q t, is_valid_non_negative_int i = true →
        is_valid_non_negative_int c = true → is_valid_non_negative_int p = true →
        is_valid_non_negative_int q = true → is_valid_non_negative_real t = false →
        mkOrder i c p q t = .error (.invalidPrice t)) := by
  refine ⟨?_, ?_, ?_, ?_, ?_, ?_, ?_, ?_, ?_, ?_⟩
  · intro id n c a
    rw [← asNonnegInt_isSome]
    cases h : asNonnegInt id <;> simp [mkCustomer, h, isOkE]
  · intro id n c a h
    simp [mkCustomer, (asNonnegInt_eq_none id).mpr h]
  · intro id n c a
    rw [← asNonnegInt_isSome]
    cases h : asNonnegInt id <;> simp [mkSupplier, h, isOkE]
  · intro id n c a h
    simp [mkSupplier, (asNonnegInt_eq_none id).mpr h]
  · intro id n pr s q
    rw [← asNonnegInt_isSome, ← asNonnegInt_isSome, ← asNonnegInt_isSome,
      ← asNonnegReal_isSome]
    cases h1 : asNonnegInt id <;> cases h2 : asNonnegInt s <;>
      cases h3 : asNonnegInt q <;> cases h4 : asNonnegReal pr <;>
      simp [mkProduct, h1, h2, h3, h4, isOkE]
  · intro id n pr s q h
    cases h1 : asNonnegInt id with
    | none => exact ⟨id, by simp [mkProduct, h1]⟩
    | some i =>
      cases h2 : asNonnegInt s with
      | none => exact ⟨s, by simp [mkProduct, h1, h2]⟩
      | some s' =>
        rcases h with h | h | h
        · rw [← asNonnegInt_isSome, h1] at h
          simp at h
        · rw [← asNonnegInt_isSome, h2] at h
          simp at h
        · exact ⟨q, by simp [mkProduct, h1, h2, (asNonnegInt_eq_none q).mpr h]⟩
  · intro id n pr s q h1 h2 h3 h4
    obtain ⟨i1, e1⟩ := asNonnegInt_eq_some id h1
    obtain ⟨i2, e2⟩ := asNonnegInt_eq_some s h2
    obtain ⟨i3, e3⟩ := asNonnegInt_eq_some q h3
    simp [mkProduct, e1, e2, e3, (asNonnegReal_eq_none pr).mpr h4]
  · intro i c p q t
    rw [← asNonnegInt_isSome, ← asNonnegInt_isSome, ← asNonnegInt_isSome,
      ← asNonnegInt_isSome, ← asNonnegReal_isSome]
    cases h1 : asNonnegInt i <;> cases h2 : asNonnegInt c <;>
      cases h3 : asNonnegInt p <;> cases h4 : asNonnegInt q <;>
      cases h5 : asNonnegReal t <;>
      simp [mkOrder, h1, h2, h3, h4, h5, isOkE]
  · intro i c p q t h
    cases h1 : asNonnegInt i with
    | none => exact ⟨i, by simp [mkOrder, h1]⟩
    | some v1 =>
      cases h2 : asNonnegInt c with
      | none => exact ⟨c, by simp [mkOrder, h1, h2]⟩
      | some v2 =>
        cases h3 : asNonnegInt p with
        | none => exact ⟨p, by simp [mkOrder, h1, h2, h3]⟩
        | some v3 =>
          rcases h with h | h | h | h
          · rw [← asNonnegInt_isSome, h1] at h
            simp at h
          · rw [← asNonnegInt_isSome, h2] at h
            simp at h
          · rw [← asNonnegInt_isSome, h3] at h
            simp at h
          · exact ⟨q, by simp [mkOrder, h1, h2, h3, (asNonnegInt_eq_none q).mpr h]⟩
  · intro i c p q t h1 h2 h3 h4 h5
    obtain ⟨v1, e1⟩ := asNonnegInt_eq_some i h1
    obtain ⟨v2, e2⟩ := asNonnegInt_eq_some c h2
    obtain ⟨v3, e3⟩ := asNonnegInt_eq_some p h3
    obtain ⟨v4, e4⟩ := asNonnegInt_eq_some q h4
    simp [mkOrder, e1, e2, e3, e4, (asNonnegReal_eq_none t).mpr h5]

/-- Witness for C9: a product whose ids are valid but whose price is the
negative float `-2` is rejected with `InvalidPriceException(-2)`. -/
theorem record_construction_spec_witness :
    mkProduct (PyVal.int 1) "x" (PyVal.float (-2)) (PyVal.int 1) (PyVal.int 1) =
      .error (.invalidPrice (PyVal.float (-2))) :=
  record_construction_spec.2.2.2.2.2.2.1 (PyVal.int 1) "x" (PyVal.float (-2))
    (PyVal.int 1) (PyVal.int 1) (by decide) (by decide) (by decide) (by decide)

/-- A concrete entity used to probe the shared-identifier-namespace rule. -/
def dupPerson : Person := ⟨5, "n", "c", "a"⟩

/-- C1: evaluation of the code at the claim's failing input.  Registering
id 5 as a customer and then registering the same id 5 as a supplier does
NOT fail: `register_entity` checks for a duplicate only in the map
selected by `is_customer` (matamazon.py:181-188), so the second call
succeeds and id 5 ends up in both maps, although the source's own comment
(matamazon.py:189) says registration shares one id space. -/
theorem register_entity_shared_namespace_violation :
    (register_entity MState.init dupPerson true).bind
        (fun st => register_entity st dupPerson false) =
      .ok ⟨[(5, dupPerson)], [(5, dupPerson)], [], [], 1⟩ := by
  rfl

/-- A snapshot line whose record validation fails: a `Product` with
price `-1`. -/
def negPriceLine : SnapLine :=
  .productLine (.int 1) "x" (.float (-1)) (.int 1) (.int 1)

/-- C2 counterexample: a snapshot consisting of one `Product` line with a
negative price is not silently skipped — the uncaught
`InvalidPriceException` aborts the whole load (matamazon.py:417-420). -/
theorem load_negative_price_not_skipped :
    load_system_from_file [negPriceLine] =
      .error (.invalidPrice (.float (-1))) := by
  rfl

theorem foldlM_parseLine_append (pre rest : List SnapLine) (b : ParsedLists) :
    List.foldlM parseLine b (pre ++ rest) =
      List.foldlM parseLine b pre >>= fun acc =>
        List.foldlM parseLine acc rest := by
  induction pre generalizing b with
  | nil => rfl
  | cons a t ih =>
    rw [List.cons_append, List.foldlM_cons, List.foldlM_cons]
    cases h : parseLine b a with
    | error e => rfl
    | ok b2 =>
      calc (Except.ok b2 >>= fun b3 => List.foldlM parseLine b3 (t ++ rest))
          = List.foldlM parseLine b2 (t ++ rest) := rfl
        _ = List.foldlM parseLine b2 t >>= fun acc =>
              List.foldlM parseLine acc rest := ih b2
        _ = (Except.ok b2 >>= fun b3 => List.foldlM parseLine b3 t) >>= fun acc =>
              List.foldlM parseLine acc rest := rfl

/-- C2 amended: at any position in the snapshot, a line that fails to
PARSE (the caught `SyntaxError/NameError/TypeError/ValueError`) or that
evaluates to a non-record value is silently skipped, while a line that
parses as a record constructor and fails record validation raises
`InvalidIdException`/`InvalidPriceException` and aborts the load (given
that the reading loop reached it, i.e. that the lines before it were
classified without error, producing accumulator `acc`). -/
theorem load_snapshot_skip_and_abort :
    (∀ pre rest,
        load_system_from_file (pre ++ SnapLine.garbage :: rest) =
          load_system_from_file (pre ++ rest)) ∧
    (∀ pre rest,
        load_system_from_file (pre ++ SnapLine.otherValue :: rest) =
          load_system_from_file (pre ++ rest)) ∧
    (∀ pre (acc : ParsedLists) l rest e,
        List.foldlM parseLine ⟨[], [], []⟩ pre = .ok acc →
        parseLine acc l = .error e →
        load_system_from_file (pre ++ l :: rest) = .error e) := by
  have ok_bind : ∀ {α β : Type} (a : α) (f : α → Except MatamaError β),
      (Except.ok a >>= f) = f a := fun _ _ => rfl
  refine ⟨?_, ?_, ?_⟩
  · intro pre rest
    unfold load_system_from_file
    rw [foldlM_parseLine_append, foldlM_parseLine_append]
    cases h : List.foldlM parseLine (⟨[], [], []⟩ : ParsedLists) pre with
    | error e => rfl
    | ok acc => rfl
  · intro pre rest
    unfold load_system_from_file
    rw [foldlM_parseLine_append, foldlM_parseLine_append]
    cases h : List.foldlM parseLine (⟨[], [], []⟩ : ParsedLists) pre with
    | error e => rfl
    | ok acc => rfl
  · intro pre acc l rest e hpre hl
    unfold load_system_from_file
    rw [foldlM_parseLine_append, hpre, ok_bind, List.foldlM_cons, hl]
    rfl

/-- Witness for C2's amended claim: a snapshot whose first line is a
valid customer and whose SECOND line is a customer with a boolean id
aborts mid-file with that line's `InvalidIdException`. -/
theorem load_snapshot_skip_and_abort_witness :
    load_system_from_file
        [SnapLine.customerLine (PyVal.int 7) "a" "b" "c",
          SnapLine.customerLine (PyVal.bool true) "x" "y" "z"] =
      .error (.invalidId (PyVal.bool true)) :=
  load_snapshot_skip_and_abort.2.2
    [SnapLine.customerLine (PyVal.int 7) "a" "b" "c"]
    ⟨[⟨7, "a", "b", "c"⟩], [], []⟩
    (SnapLine.customerLine (PyVal.bool true) "x" "y" "z") [] _
    (by rfl) (by rfl)

/-- The state after a successful `place_order` (matamazon.py:242-247):
stock decremented in place, the new order stored under the current
`_next_order_id`, and the counter advanced by one. -/
def placeSuccState (st : MState) (c pid q : Nat) (prod : Product) : MState :=
  { st with
      products := setA st.products pid { prod with quantity := prod.quantity - q }
      orders := setA st.orders st.next_order_id
        ⟨st.next_order_id, c, pid, q, prod.price * (q : ℚ)⟩
      next_order_id := st.next_order_id + 1 }

theorem place_order_success_eq (st : MState) (c pid q : Nat) (prod : Product)
    (hc : containsA st.customers c = true)
    (hp : lookupA st.products pid = some prod)
    (hq : q ≤ prod.quantity) (hpr : 0 ≤ prod.price) :
    place_order st (.int c) (.int pid) (.int q) =
      .ok (placeSuccState st c pid q prod, .success) := by
  have hnn : ¬ ((prod.price * (q : ℚ)) < 0) :=
    not_lt.mpr (mul_nonneg hpr (by positivity))
  unfold place_order placeSuccState
  simp only [asNonnegInt_natCast, hc, hp]
  rw [if_neg (by simp), if_neg (Nat.not_lt.mpr hq)]
  rw [if_neg hnn]

theorem place_order_nonsuccess {st : MState} {cid pid qty : PyVal} {st' : MState}
    {out : OrderOutcome} (h : place_order st cid pid qty = .ok (st', out))
    (hout : out ≠ OrderOutcome.success) : st' = st := by
  unfold place_order at h
  repeat' split at h
  all_goals (try (simp only [] at h ; split at h))
  all_goals
    first
      | exact Except.noConfusion h
      | (rw [Except.ok.injEq, Prod.mk.injEq] at h
         first
           | exact h.1.symm
           | exact absurd h.2.symm hout)

/-- C3: a successful `place_order` decrements the product's quantity by
exactly the requested amount, creates an order with
`total_price = price * quantity`, assigns it the current `_next_order_id`
and advances that counter by one; calls that return a non-success outcome
leave the state (and hence the counter) unchanged, and the counter starts
at 1, so successful calls get ids 1, 2, 3, …. -/
theorem place_order_success_spec :
    MState.init.next_order_id = 1 ∧
    (∀ st cid pid qty st' out, place_order st cid pid qty = .ok (st', out) →
        out ≠ OrderOutcome.success → st' = st) ∧
    (∀ (st : MState) (c pid q : Nat) (prod : Product),
        containsA st.customers c = true →
        lookupA st.products pid = some prod →
        q ≤ prod.quantity → 0 ≤ prod.price →
        place_order st (.int c) (.int pid) (.int q) =
            .ok (placeSuccState st c pid q prod, .success) ∧
          lookupA (placeSuccState st c pid q prod).products pid =
            some { prod with quantity := prod.quantity - q } ∧
          lookupA (placeSuccState st c pid q prod).orders st.next_order_id =
            some ⟨st.next_order_id, c, pid, q, prod.price * (q : ℚ)⟩ ∧
          (placeSuccState st c pid q prod).next_order_id =
            st.next_order_id + 1) := by
  refine ⟨rfl, ?_, ?_⟩
  · exact fun st cid pid qty st' out h hout => place_order_nonsuccess h hout
  · intro st c pid q prod hc hp hq hpr
    refine ⟨place_order_success_eq st c pid q prod hc hp hq hpr, ?_, ?_, rfl⟩
    · exact lookupA_setA_self st.products pid _
    · exact lookupA_setA_self st.orders st.next_order_id _

/-- A concrete store used to witness the order-placement theorems:
customer 2, supplier 1, product 10 (price 5, quantity 3), no orders. -/
def stW : MState :=
  ⟨[(2, ⟨2, "C", "CityB", "AddrB"⟩)], [(1, ⟨1, "S", "CityA", "AddrA"⟩)],
    [(10, ⟨10, "Widget", 5, 1, 3⟩)], [], 1⟩

/-- The product stored in `stW`. -/
def prodW : Product := ⟨10, "Widget", 5, 1, 3⟩

/-- Witness for C3: ordering 2 units of product 10 from `stW` succeeds,
leaves quantity 1, stores order 1 with total price 10, and advances the
counter to 2. -/
theorem place_order_success_spec_witness :
    place_order stW (.int ((2 : Nat) : Int)) (.int ((10 : Nat) : Int))
        (.int ((2 : Nat) : Int)) =
        .ok (placeSuccState stW 2 10 2 prodW, .success) ∧
      lookupA (placeSuccState stW 2 10 2 prodW).products 10 =
        some { prodW with quantity := prodW.quantity - 2 } ∧
      lookupA (placeSuccState stW 2 10 2 prodW).orders stW.next_order_id =
        some ⟨stW.next_order_id, 2, 10, 2, prodW.price * ((2 : Nat) : ℚ)⟩ ∧
      (placeSuccState stW 2 10 2 prodW).next_order_id = stW.next_order_id + 1 :=
  place_order_success_spec.2.2 stW 2 10 2 prodW (by rfl) (by rfl) (by decide)
    (by decide)

/-- C10: with a registered customer and an existing product, an order of
quantity 0 succeeds: the stock is unchanged, the stored order has
quantity 0 and total price 0, and the order-id counter is consumed. -/
theorem place_order_zero_quantity :
    ∀ (st : MState) (c pid : Nat) (prod : Product),
      containsA st.customers c = true →
      lookupA st.products pid = some prod → 0 ≤ prod.price →
      place_order st (.int c) (.int pid) (.int 0) =
          .ok (placeSuccState st c pid 0 prod, .success) ∧
        lookupA (placeSuccState st c pid 0 prod).products pid = some prod ∧
        lookupA (placeSuccState st c pid 0 prod).orders st.next_order_id =
          some ⟨st.next_order_id, c, pid, 0, 0⟩ ∧
        (placeSuccState st c pid 0 prod).next_order_id = st.next_order_id + 1 := by
  intro st c pid prod hc hp hpr
  refine ⟨place_order_success_eq st c pid 0 prod hc hp (Nat.zero_le _) hpr,
    ?_, ?_, rfl⟩
  · have h5 : ({ prod with quantity := prod.quantity - 0 } : Product) = prod := by
      cases prod
      simp
    have := lookupA_setA_self st.products pid
      ({ prod with quantity := prod.quantity - 0 })
    rw [h5] at this
    simpa [placeSuccState, h5] using this
  · have h6 : (⟨st.next_order_id, c, pid, 0, prod.price * ((0 : Nat) : ℚ)⟩ : Order) =
        ⟨st.next_order_id, c, pid, 0, 0⟩ := by simp
    have := lookupA_setA_self st.orders st.next_order_id
      (⟨st.next_order_id, c, pid, 0, prod.price * ((0 : Nat) : ℚ)⟩ : Order)
    rw [h6] at this
    simpa [placeSuccState] using this

/-- Witness for C10: ordering 0 units of product 10 from `stW` succeeds,
keeps its quantity at 3, and stores order 1 with quantity 0 and total 0. -/
theorem place_order_zero_quantity_witness :
    place_order stW (.int ((2 : Nat) : Int)) (.int ((10 : Nat) : Int))
        (.int ((0 : Nat) : Int)) =
        .ok (placeSuccState stW 2 10 0 prodW, .success) ∧
      lookupA (placeSuccState stW 2 10 0 prodW).products 10 = some prodW ∧
      lookupA (placeSuccState stW 2 10 0 prodW).orders stW.next_order_id =
        some ⟨stW.next_order_id, 2, 10, 0, 0⟩ ∧
      (placeSuccState stW 2 10 0 prodW).next_order_id = stW.next_order_id + 1 :=
  place_order_zero_quantity stW 2 10 prodW (by rfl) (by rfl) (by decide)

/-- C5: `place_order` raises `InvalidIdException` when `customer_id`,
`product_id` or `quantity` fails `_is_valid_non_negative_int` (checked in
that order) or when the customer is not registered; a missing product and
insufficient stock are return-value outcomes with the state unchanged. -/
theorem place_order_error_outcomes :
    (∀ st cid pid qty, asNonnegInt cid = Option.none →
        place_order st cid pid qty = .error (.invalidId cid)) ∧
    (∀ st cid pid qty c, asNonnegInt cid = some c →
        asNonnegInt pid = Option.none →
        place_order st cid pid qty = .error (.invalidId pid)) ∧
    (∀ st cid pid qty c p, asNonnegInt cid = some c → asNonnegInt pid = some p →
        asNonnegInt qty = Option.none →
        place_order st cid pid qty = .error (.invalidId qty)) ∧
    (∀ st cid pid qty c p q, asNonnegInt cid = some c → asNonnegInt pid = some p →
        asNonnegInt qty = some q → containsA st.customers c = false →
        place_order st cid pid qty = .error (.invalidId cid)) ∧
    (∀ st cid pid qty c p q, asNonnegInt cid = some c → asNonnegInt pid = some p →
        asNonnegInt qty = some q → containsA st.customers c = true →
        lookupA st.products p = Option.none →
        place_order st cid pid qty = .ok (st, .noProduct)) ∧
    (∀ st cid pid qty c p q prod, asNonnegInt cid = some c →
        asNonnegInt pid = some p → asNonnegInt qty = some q →
        containsA st.customers c = true → lookupA st.products p = some prod →
        prod.quantity < q →
        place_order st cid pid qty = .ok (st, .notEnoughStock)) := by
  refine ⟨?_, ?_, ?_, ?_, ?_, ?_⟩
  · intro st cid pid qty h1
    simp [place_order, h1]
  · intro st cid pid qty c h1 h2
    simp [place_order, h1, h2]
  · intro st cid pid qty c p h1 h2 h3
    simp [place_order, h1, h2, h3]
  · intro st cid pid qty c p q h1 h2 h3 h4
    simp [place_order, h1, h2, h3, h4]
  · intro st cid pid qty c p q h1 h2 h3 h4 h5
    simp [place_order, h1, h2, h3, h4, h5]
  · intro st cid pid qty c p q prod h1 h2 h3 h4 h5 h6
    simp [place_order, h1, h2, h3, h4, h5, h6]

/-- Witness for C5: ordering a nonexistent product 99 from `stW` returns
the "no such product" outcome with the store unchanged. -/
theorem place_order_error_outcomes_witness :
    place_order stW (PyVal.int 2) (PyVal.int 99) (PyVal.int 1) =
      .ok (stW, .noProduct) :=
  place_order_error_outcomes.2.2.2.2.1 stW (PyVal.int 2) (PyVal.int 99)
    (PyVal.int 1) 2 99 1 (by rfl) (by rfl) (by rfl) (by rfl) (by rfl)

/-- The state after removing the order created by `placeSuccState`
(matamazon.py:264-278): the product's quantity is bumped back by the
order's quantity (in place) and the order is deleted. -/
def removedOrderState (st : MState) (c pid q : Nat) (prod : Product) : MState :=
  { placeSuccState st c pid q prod with
      products := setA (placeSuccState st c pid q prod).products pid
        { prod with quantity := prod.quantity - q + q }
      orders := eraseA (placeSuccState st c pid q prod).orders st.next_order_id }

/-- C4: after a successful `place_order`, removing the created order (with
no other mutation in between) returns the restored quantity and brings
the product back to exactly its pre-order record, quantity included. -/
theorem place_remove_roundtrip :
    ∀ (st : MState) (c pid q : Nat) (prod : Product),
      containsA st.customers c = true →
      lookupA st.products pid = some prod →
      q ≤ prod.quantity → 0 ≤ prod.price →
      place_order st (.int c) (.int pid) (.int q) =
          .ok (placeSuccState st c pid q prod, .success) ∧
        remove_object (placeSuccState st c pid q prod)
            (.int st.next_order_id) "Order" =
          .ok (removedOrderState st c pid q prod, some q) ∧
        lookupA (removedOrderState st c pid q prod).products pid = some prod := by
  intro st c pid q prod hc hp hq hpr
  have horder : lookupA (placeSuccState st c pid q prod).orders st.next_order_id =
      some ⟨st.next_order_id, c, pid, q, prod.price * (q : ℚ)⟩ :=
    lookupA_setA_self st.orders st.next_order_id _
  have hprod : lookupA (placeSuccState st c pid q prod).products pid =
      some { prod with quantity := prod.quantity - q } :=
    lookupA_setA_self st.products pid _
  refine ⟨place_order_success_eq st c pid q prod hc hp hq hpr, ?_, ?_⟩
  · simp only [remove_object, asNonnegInt_natCast, reduceIte, horder, hprod]
    rfl
  · have h5 : ({ prod with quantity := prod.quantity - q + q } : Product) = prod := by
      rw [Nat.sub_add_cancel hq]
    have h6 := lookupA_setA_self (placeSuccState st c pid q prod).products pid
      ({ prod with quantity := prod.quantity - q + q })
    simp only [removedOrderState]
    rw [h5] at h6 ⊢
    exact h6

/-- Witness for C4: in `stW`, place 2 units of product 10, remove order 1:
the removal returns 2 and product 10 is back to quantity 3. -/
theorem place_remove_roundtrip_witness :
    place_order stW (.int ((2 : Nat) : Int)) (.int ((10 : Nat) : Int))
        (.int ((2 : Nat) : Int)) =
        .ok (placeSuccState stW 2 10 2 prodW, .success) ∧
      remove_object (placeSuccState stW 2 10 2 prodW)
          (.int ((stW.next_order_id : Nat) : Int)) "Order" =
        .ok (removedOrderState stW 2 10 2 prodW, some 2) ∧
      lookupA (removedOrderState stW 2 10 2 prodW).products 10 = some prodW :=
  place_remove_roundtrip stW 2 10 2 prodW (by rfl) (by rfl) (by decide) (by decide)

/-- C6: `remove_object` refuses (with `InvalidIdException` and no state
change) to delete a Customer or Product referenced by an existing order,
or a Supplier referenced by a product or by an order whose product belongs
to it; once no dependent exists, the same call deletes the entity. -/
theorem remove_object_dependency_spec :
    (∀ (st : MState) (i : Nat), containsA st.customers i = true →
        st.orders.any (fun kv => kv.2.customer_id == i) = true →
        remove_object st (.int i) "Customer" = .error (.invalidId (.int i))) ∧
    (∀ (st : MState) (i : Nat), containsA st.customers i = true →
        st.orders.any (fun kv => kv.2.customer_id == i) = false →
        remove_object st (.int i) "Customer" =
          .ok ({ st with customers := eraseA st.customers i }, Option.none)) ∧
    (∀ (st : MState) (i : Nat), containsA st.products i = true →
        st.orders.any (fun kv => kv.2.product_id == i) = true →
        remove_object st (.int i) "Product" = .error (.invalidId (.int i))) ∧
    (∀ (st : MState) (i : Nat), containsA st.products i = true →
        st.orders.any (fun kv => kv.2.product_id == i) = false →
        remove_object st (.int i) "Product" =
          .ok ({ st with products := eraseA st.products i }, Option.none)) ∧
    (∀ (st : MState) (i : Nat), containsA st.suppliers i = true →
        (st.products.any (fun kv => kv.2.supplier_id == i) = true ∨
          st.orders.any (fun kv =>
            match lookupA st.products kv.2.product_id with
            | some p => p.supplier_id == i
            | Option.none => false) = true) →
        remove_object st (.int i) "Supplier" = .error (.invalidId (.int i))) ∧
    (∀ (st : MState) (i : Nat), containsA st.suppliers i = true →
        st.products.any (fun kv => kv.2.supplier_id == i) = false →
        st.orders.any (fun kv =>
          match lookupA st.products kv.2.product_id with
          | some p => p.supplier_id == i
          | Option.none => false) = false →
        remove_object st (.int i) "Supplier" =
          .ok ({ st with suppliers := eraseA st.suppliers i }, Option.none)) := by
  refine ⟨?_, ?_, ?_, ?_, ?_, ?_⟩
  · intro st i hc hdep
    simp [remove_object, asNonnegInt_natCast, hc, hdep]
  · intro st i hc hdep
    simp [remove_object, asNonnegInt_natCast, hc, hdep]
  · intro st i hc hdep
    simp [remove_object, asNonnegInt_natCast, hc, hdep]
  · intro st i hc hdep
    simp [remove_object, asNonnegInt_natCast, hc, hdep]
  · intro st i hc hdep
    cases hpr : st.products.any (fun kv => kv.2.supplier_id == i) with
    | true => simp [remove_object, asNonnegInt_natCast, hc, hpr]
    | false =>
      rcases hdep with hdep | hdep
      · rw [hpr] at hdep
        exact absurd hdep (by simp)
      · simp [remove_object, asNonnegInt_natCast, hc, hpr, hdep]
  · intro st i hc hdep1 hdep2
    simp [remove_object, asNonnegInt_natCast, hc, hdep1, hdep2]

/-- A store like `stW` but in which customer 2 has an open order (id 1)
for 2 units of product 10. -/
def stOrd : MState :=
  ⟨[(2, ⟨2, "C", "CityB", "AddrB"⟩)], [(1, ⟨1, "S", "CityA", "AddrA"⟩)],
    [(10, ⟨10, "Widget", 5, 1, 3⟩)], [(1, ⟨1, 2, 10, 2, 10⟩)], 2⟩

/-- Witness for C6: deleting product 10 of `stOrd`, which order 1 still
references, fails with `InvalidIdException(10)`. -/
theorem remove_object_dependency_spec_witness :
    remove_object stOrd (.int ((10 : Nat) : Int)) "Product" =
      .error (.invalidId (.int ((10 : Nat) : Int))) :=
  remove_object_dependency_spec.2.2.1 stOrd 10 (by rfl) (by rfl)

/-- C8: `add_or_update_product` rejects an unregistered supplier, inserts
a product with a new id verbatim, rejects an update whose supplier id
differs from the stored one, and otherwise updates only name, price and
quantity in place, keeping the stored id and supplier id. -/
theorem add_or_update_product_spec :
    (∀ (st : MState) (product : Product),
        containsA st.suppliers product.supplier_id = false →
        add_or_update_product st product =
          .error (.invalidId (.int product.supplier_id))) ∧
    (∀ (st : MState) (product : Product),
        containsA st.suppliers product.supplier_id = true →
        lookupA st.products product.id = Option.none →
        add_or_update_product st product =
          .ok { st with products := setA st.products product.id product }) ∧
    (∀ (st : MState) (product existing : Product),
        containsA st.suppliers product.supplier_id = true →
        lookupA st.products product.id = some existing →
        existing.supplier_id ≠ product.supplier_id →
        add_or_update_product st product =
          .error (.invalidId (.int product.supplier_id))) ∧
    (∀ (st : MState) (product existing : Product),
        containsA st.suppliers product.supplier_id = true →
        lookupA st.products product.id = some existing →
        existing.supplier_id = product.supplier_id →
        add_or_update_product st product =
          .ok { st with
                  products := setA st.products product.id
                    (⟨existing.id, product.name, product.price,
                      existing.supplier_id, product.quantity⟩ : Product) }) := by
  refine ⟨?_, ?_, ?_, ?_⟩
  · intro st product h1
    simp [add_or_update_product, h1]
  · intro st product h1 h2
    simp [add_or_update_product, h1, h2]
  · intro st product existing h1 h2 h3
    simp [add_or_update_product, h1, h2, h3]
  · intro st product existing h1 h2 h3
    simp [add_or_update_product, h1, h2, h3]

/-- Witness for C8: adding a fresh product 11 from registered supplier 1
to `stW` appends it to the product map verbatim. -/
theorem add_or_update_product_spec_witness :
    add_or_update_product stW ⟨11, "Gadget", 7, 1, 2⟩ =
      .ok { stW with
              products := setA stW.products 11 ⟨11, "Gadget", 7, 1, 2⟩ } :=
  add_or_update_product_spec.2.1 stW ⟨11, "Gadget", 7, 1, 2⟩ (by rfl) (by rfl)

/-- The list of products the search loop keeps, in encounter order
(matamazon.py:333-340). -/
def search_filtered (st : MState) (query : String) (m : Option ℚ) :
    List Product :=
  (st.products.map Prod.snd).filter (search_matches query m)

theorem filter_price_orderedInsert (a : Product) (s : List Product) (c : ℚ) :
    (List.orderedInsert priceLE a s).filter (fun p => p.price == c) =
      if a.price = c then a :: s.filter (fun p => p.price == c)
      else s.filter (fun p => p.price == c) := by
  induction s with
  | nil =>
    by_cases h : a.price = c
    · simp [List.orderedInsert, List.filter, beq_iff_eq, h]
    · have h2 : (a.price == c) = false := beq_eq_false_iff_ne.mpr h
      simp [List.orderedInsert, List.filter, beq_iff_eq, h, h2]
  | cons b t ih =>
    by_cases hab : priceLE a b
    · by_cases h : a.price = c <;>
        simp [List.orderedInsert, hab, List.filter, beq_iff_eq, h]
    · have hlt : b.price < a.price := by
        have := not_le.mp (fun hle => hab hle)
        exact this
      by_cases h : a.price = c
      · have hbc : b.price ≠ c := ne_of_lt (h ▸ hlt)
        have hbc2 : (b.price == c) = false := beq_eq_false_iff_ne.mpr hbc
        simp [List.orderedInsert, hab, List.filter, beq_iff_eq, ih, h, hbc, hbc2]
      · by_cases hb : b.price = c
        · simp [List.orderedInsert, hab, List.filter, beq_iff_eq, ih, h, hb]
        · have hb2 : (b.price == c) = false := beq_eq_false_iff_ne.mpr hb
          simp [List.orderedInsert, hab, List.filter, beq_iff_eq, ih, h, hb, hb2]

theorem filter_price_insertionSort (l : List Product) (c : ℚ) :
    (List.insertionSort priceLE l).filter (fun p => p.price == c) =
      l.filter (fun p => p.price == c) := by
  induction l with
  | nil => rfl
  | cons a t ih =>
    rw [List.insertionSort, filter_price_orderedInsert]
    by_cases h : a.price = c
    · simp [List.filter, beq_iff_eq, h, ih]
    · have h2 : (a.price == c) = false := beq_eq_false_iff_ne.mpr h
      simp [List.filter, beq_iff_eq, h, h2, ih]

/-- C7: `search_products` raises `InvalidPriceException` for an invalid
`max_price`; otherwise the result holds exactly the in-stock products
whose lowercased name contains the lowercased query (and respect the
price bound when given), is sorted ascending by price, and products of
equal price keep their encounter order (stability, stated as: filtering
the result at any fixed price gives the same list as filtering the
pre-sort match list). -/
theorem search_products_spec :
    (∀ (st : MState) (query : String) (v : PyVal),
        asNonnegReal v = Option.none →
        search_products st query (some v) = .error (.invalidPrice v)) ∧
    (∀ (st : MState) (query : String) (v : PyVal) (m : ℚ) (res : List Product),
        asNonnegReal v = some m →
        search_products st query (some v) = .ok res →
        (∀ p, p ∈ res ↔ p ∈ search_filtered st query (some m)) ∧
          res.Sorted priceLE ∧
          (∀ c : ℚ, res.filter (fun p => p.price == c) =
            (search_filtered st query (some m)).filter (fun p => p.price == c))) ∧
    (∀ (st : MState) (query : String) (res : List Product),
        search_products st query Option.none = .ok res →
        (∀ p, p ∈ res ↔ p ∈ search_filtered st query Option.none) ∧
          res.Sorted priceLE ∧
          (∀ c : ℚ, res.filter (fun p => p.price == c) =
            (search_filtered st query Option.none).filter
              (fun p => p.price == c))) := by
  refine ⟨?_, ?_, ?_⟩
  · intro st query v h
    simp [search_products, h]
  · intro st query v m res h1 h2
    simp only [search_products, h1, Except.ok.injEq] at h2
    subst h2
    refine ⟨?_, List.sorted_insertionSort priceLE _, ?_⟩
    · intro p
      exact (List.perm_insertionSort priceLE _).mem_iff
    · intro c
      exact filter_price_insertionSort _ c
  · intro st query res h2
    simp only [search_products, Except.ok.injEq] at h2
    subst h2
    refine ⟨?_, List.sorted_insertionSort priceLE _, ?_⟩
    · intro p
      exact (List.perm_insertionSort priceLE _).mem_iff
    · intro c
      exact filter_price_insertionSort _ c

/-- Witness for C7: searching `stW` for "wid" with no price bound finds
exactly the widget: the result `[prodW]` agrees with the match list on
membership, is sorted, and preserves the order of price-5 entries. -/
theorem search_products_spec_witness :
    (prodW ∈ [prodW] ↔ prodW ∈ search_filtered stW "wid" Option.none) ∧
      List.Sorted priceLE [prodW] ∧
      [prodW].filter (fun p => p.price == (5 : ℚ)) =
        (search_filtered stW "wid" Option.none).filter
          (fun p => p.price == (5 : ℚ)) :=
  have h := search_products_spec.2.2 stW "wid" [prodW] (by rfl)
  ⟨h.1 prodW, h.2.1, h.2.2 5⟩
